import Mathlib

/-!
Verification of the plate-lookup bot core (validator, tiered cache,
lookup orchestrator, remote source adapters), shallowly embedded from
the Python source in src/__main__.py.

Conventions of the embedding:
* Python strings are Lean `String`s; `upper`, `strip` and the regex
  character classes are modelled on the ASCII range they actually touch
  for plate inputs.
* A JSON body / Python dict is abstracted to the fields the core
  inspects: the optional "erro" field, the optional "message" field, and
  an opaque payload standing for all remaining content.
* A remote call is embedded by passing its transport outcome in as data
  (timeout exception, other exception, or a status-coded response whose
  body either parses to a dict or fails to parse).
* The TTL caches are modelled by their observable content at the moment
  of a lookup: an association list of the currently live, unexpired
  entries.
-/

/-- ASCII uppercase letter, the character class written A to Z in the
source regexes. -/
def isUpperLetter (c : Char) : Bool :=
  'A' ≤ c && c ≤ 'Z'

/-- ASCII digit, the character class written 0 to 9 in the source
regexes. -/
def isDigitChar (c : Char) : Bool :=
  '0' ≤ c && c ≤ '9'

/-- The character class kept by normalize_plate: A to Z or 0 to 9. -/
def isUpperAlnum (c : Char) : Bool :=
  isUpperLetter c || isDigitChar c

/-- ASCII whitespace as removed by the Python str.strip method. -/
def isPySpace (c : Char) : Bool :=
  c = ' ' || c = '\t' || c = '\n' || c = '\r' || c = '\x0b' || c = '\x0c'

/-- Python str.upper on one character, restricted to ASCII case
mapping. -/
def pyToUpper (c : Char) : Char :=
  if 'a' ≤ c && c ≤ 'z' then Char.ofNat (c.toNat - 32) else c

/-- Python str.strip on a character list: drop leading and trailing
whitespace. -/
def stripChars (l : List Char) : List Char :=
  ((l.dropWhile isPySpace).reverse.dropWhile isPySpace).reverse

/-- Python str.strip on a string. -/
def pyStrip (s : String) : String :=
  String.mk (stripChars s.data)

/-- PlateValidator.normalize_plate: uppercase, strip, then remove every
character outside A-Z0-9 (the re.sub in the source). -/
def normalize_plate (s : String) : String :=
  String.mk ((stripChars (s.data.map pyToUpper)).filter isUpperAlnum)

/-- The mercosul pattern of PLATE_PATTERNS: three letters, one digit,
one letter, two digits (ABC1D23). -/
def matchesMercosul : List Char → Bool
  | [a, b, c, d, e, f, g] =>
      isUpperLetter a && isUpperLetter b && isUpperLetter c &&
      isDigitChar d && isUpperLetter e && isDigitChar f && isDigitChar g
  | _ => false

/-- The antiga pattern of PLATE_PATTERNS: three letters then four digits
(ABC1234). -/
def matchesAntiga : List Char → Bool
  | [a, b, c, d, e, f, g] =>
      isUpperLetter a && isUpperLetter b && isUpperLetter c &&
      isDigitChar d && isDigitChar e && isDigitChar f && isDigitChar g
  | _ => false

/-- The moto_mercosul pattern of PLATE_PATTERNS: three letters, two
digits, one letter, one digit (ABC12D3). -/
def matchesMotoMercosul : List Char → Bool
  | [a, b, c, d, e, f, g] =>
      isUpperLetter a && isUpperLetter b && isUpperLetter c &&
      isDigitChar d && isDigitChar e && isUpperLetter f && isDigitChar g
  | _ => false

/-- PlateValidator.validate_plate: uppercase and strip the input, then
test the patterns in the insertion order of PLATE_PATTERNS (mercosul,
antiga, moto_mercosul); first match wins, otherwise invalid. -/
def validate_plate (s : String) : Bool × String :=
  let plate := stripChars (s.data.map pyToUpper)
  if matchesMercosul plate then (true, "mercosul")
  else if matchesAntiga plate then (true, "antiga")
  else if matchesMotoMercosul plate then (true, "moto_mercosul")
  else (false, "invalid")

/-- Outcome of the validation stage of handle_message, before any cache
or adapter access: the raw length gate, then validate_plate, and only
the lookup constructor proceeds to consultar_placa. -/
inductive MsgDecision
  | lengthReject
  | formatReject
  | lookup (placa : String) (plateType : String)
deriving DecidableEq

/-- The validation pipeline of handle_message: strip the text, reject if
the raw stripped length is outside 7..8, normalize, then reject if
validate_plate fails; otherwise proceed to the lookup with the
normalized plate and its type. -/
def handle_message_decision (text : String) : MsgDecision :=
  let user_input := pyStrip text
  let placa := normalize_plate user_input
  if ¬ (7 ≤ user_input.length ∧ user_input.length ≤ 8) then
    MsgDecision.lengthReject
  else if (validate_plate placa).1 = false then
    MsgDecision.formatReject
  else
    MsgDecision.lookup placa (validate_plate placa).2

/-- Outcome of the validation stage of handle_inline_query: empty-query
help, the normalized length-7 gate, then validate_plate. -/
inductive InlineDecision
  | emptyQuery
  | lengthReject
  | formatReject
  | lookup (placa : String) (plateType : String)
deriving DecidableEq

/-- The validation pipeline of handle_inline_query: strip the query,
answer help on empty input, normalize, reject unless the normalized
plate has exactly 7 characters, then reject if validate_plate fails;
otherwise proceed to the lookup. -/
def handle_inline_decision (queryText : String) : InlineDecision :=
  let query := pyStrip queryText
  if query = "" then
    InlineDecision.emptyQuery
  else
    let placa := normalize_plate query
    if placa.length ≠ 7 then
      InlineDecision.lengthReject
    else if (validate_plate placa).1 = false then
      InlineDecision.formatReject
    else
      InlineDecision.lookup placa (validate_plate placa).2

/-- A Python dict / JSON body, abstracted to the fields the core
inspects: the optional "erro" field, the optional "message" field, and
an opaque payload standing for all remaining content. A dict with
erro = none is a Record; a dict with erro = some k is the
ClassifiedFailure of kind k. -/
structure Dict where
  erro : Option String
  message : Option String
  payload : String
deriving DecidableEq

/-- Transport outcome of the primary adapter call in
consultar_api_principal: a timeout exception, any other exception raised
by the GET, or a status-coded response whose body either parses to a
dict (some) or raises on response.json (none). -/
inductive TransportOutcome
  | timeoutExc
  | otherExc
  | response (status : Nat) (body : Option Dict)
deriving DecidableEq

/-- APIConsultor.consultar_api_principal as a total function of the
transport outcome: 402, 404 and 429 are classified before
raise_for_status; any other non-2xx status raises HTTPStatusError which
is caught as http_error; a timeout is caught as timeout; every other
exception, including a response.json parse failure on a 2xx response,
is caught by the generic except as api_error; a parsed 2xx body is
returned as is. -/
def consultar_api_principal : TransportOutcome → Dict
  | TransportOutcome.timeoutExc =>
      ⟨some "timeout", some "⏱️ Timeout na consulta", ""⟩
  | TransportOutcome.otherExc =>
      ⟨some "api_error", some "❌ Erro na consulta", ""⟩
  | TransportOutcome.response status body =>
      if status = 402 then
        ⟨some "payment_required",
         some "⚠️ Serviço temporariamente indisponível - Créditos esgotados", ""⟩
      else if status = 404 then
        ⟨some "not_found", some "🔍 Placa não encontrada na base de dados", ""⟩
      else if status = 429 then
        ⟨some "rate_limit", some "⏱️ Muitas consultas. Aguarde alguns segundos", ""⟩
      else if status < 200 ∨ 299 < status then
        ⟨some "http_error", some ("❌ Erro HTTP: " ++ toString status), ""⟩
      else
        match body with
        | some d => d
        | none => ⟨some "api_error", some "❌ Erro na consulta", ""⟩

/-- One configured slot of API_BACKUP_URLS as consultar_apis_backup sees
it: the environment variable may be unset (falsy url, skipped without a
request), the GET may raise (caught and skipped), or a status-coded
response arrives whose body parses (some) or raises on json (none). -/
inductive BackupSlot
  | unset
  | exc
  | response (status : Nat) (body : Option Dict)
deriving DecidableEq

/-- The aggregate failure consultar_apis_backup returns when every
backup is exhausted without an HTTP 200. -/
def allFailedDict : Dict :=
  ⟨some "all_apis_failed", some "❌ Todas as APIs de backup falharam", ""⟩

/-- The loop body of consultar_apis_backup, instrumented with the list
of slot indices at which an HTTP request was actually attempted: unset
urls are skipped silently; an exception or a non-200 status or an
unparseable 200 body logs and continues; the body of the first 200
response that parses is returned unconditionally. -/
def backupScan : Nat → List BackupSlot → Dict × List Nat
  | _, [] => (allFailedDict, [])
  | i, BackupSlot.unset :: rest => backupScan (i + 1) rest
  | i, BackupSlot.exc :: rest =>
      let r := backupScan (i + 1) rest
      (r.1, i :: r.2)
  | i, BackupSlot.response status body :: rest =>
      if status = 200 then
        match body with
        | some d => (d, [i])
        | none =>
            let r := backupScan (i + 1) rest
            (r.1, i :: r.2)
      else
        let r := backupScan (i + 1) rest
        (r.1, i :: r.2)

/-- APIConsultor.consultar_apis_backup over the configured slots,
returning the scan result and the indices of the slots actually
queried. -/
def consultar_apis_backup (slots : List BackupSlot) : Dict × List Nat :=
  backupScan 0 slots

/-- A cache tier at the moment of a lookup: the association list of its
currently live, unexpired entries (the observable content of the
TTLCache). -/
abbrev CacheL : Type :=
  List (String × Dict)

/-- Membership test and read of a TTLCache, on the live entries. -/
def cGet : CacheL → String → Option Dict
  | [], _ => none
  | (k, v) :: rest, key => if k = key then some v else cGet rest key

/-- Write to a TTLCache: the new entry shadows any older one with the
same key (observationally equal to overwrite under cGet). -/
def cPut (m : CacheL) (k : String) (v : Dict) : CacheL :=
  (k, v) :: m

/-- The fallback trigger test on line 167 of the source: the result
carries an erro field whose value is payment_required, api_error,
timeout or http_error. -/
def wantsFallback (d : Dict) : Bool :=
  match d.erro with
  | some k =>
      k == "payment_required" || k == "api_error" || k == "timeout" || k == "http_error"
  | none => false

/-- Full observable outcome of one consultar_placa call: the returned
dict, the two cache tiers afterwards, and the instrumented trace of
remote activity (whether the primary was queried, whether the backup
scan was entered, and which backup slots were queried). -/
structure LookupOut where
  result : Dict
  cp : CacheL
  ce : CacheL
  primaryCalled : Bool
  fallbackEntered : Bool
  backupsCalled : List Nat
deriving DecidableEq

/-- APIConsultor.consultar_placa: check cache_principal under key
placa_<placa>, then cache_erros under key error_<placa>; on a double
miss query the primary, enter the backup scan exactly when the primary
result carries one of the four fallback kinds, cache a successful
backup body in cache_principal, otherwise cache the original primary
failure in cache_erros; without fallback, cache an erro result in
cache_erros and a record in cache_principal. -/
def consultar_placa (placa : String) (primary : TransportOutcome)
    (slots : List BackupSlot) (cp ce : CacheL) : LookupOut :=
  let cache_key := "placa_" ++ placa
  let error_key := "error_" ++ placa
  match cGet cp cache_key with
  | some v => ⟨v, cp, ce, false, false, []⟩
  | none =>
      match cGet ce error_key with
      | some v => ⟨v, cp, ce, false, false, []⟩
      | none =>
          let resultado := consultar_api_principal primary
          if wantsFallback resultado then
            let rb := consultar_apis_backup slots
            if rb.1.erro = none then
              ⟨rb.1, cPut cp cache_key rb.1, ce, true, true, rb.2⟩
            else
              ⟨resultado, cp, cPut ce error_key resultado, true, true, rb.2⟩
          else if resultado.erro.isSome then
            ⟨resultado, cp, cPut ce error_key resultado, true, false, []⟩
          else
            ⟨resultado, cPut cp cache_key resultado, ce, true, false, []⟩

/-- Observable outcome of the lookup-and-cache step of
handle_inline_query: the result, all three tiers afterwards, and
whether consultar_placa was invoked at all. -/
structure InlineOut where
  result : Dict
  cp : CacheL
  ce : CacheL
  ci : CacheL
  lookupCalled : Bool
deriving DecidableEq

/-- The cache interaction of handle_inline_query after validation: read
cache_inline under key inline_<placa>; on a miss run consultar_placa
and store the result in cache_inline only when it carries no erro
field. -/
def inline_cache_step (placa : String) (primary : TransportOutcome)
    (slots : List BackupSlot) (cp ce ci : CacheL) : InlineOut :=
  let key := "inline_" ++ placa
  match cGet ci key with
  | some r => ⟨r, cp, ce, ci, false⟩
  | none =>
      let o := consultar_placa placa primary slots cp ce
      let ci2 := if o.result.erro = none then cPut ci key o.result else ci
      ⟨o.result, o.cp, o.ce, ci2, true⟩

/-- A backup slot at which the scan of consultar_apis_backup moves on to
the next slot: an unset url, a raised request, a non-200 status, or a
200 response whose body fails to parse. -/
def slotSkips : BackupSlot → Bool
  | BackupSlot.unset => true
  | BackupSlot.exc => true
  | BackupSlot.response status body => status ≠ 200 || body.isNone

/-- The slot indices at which consultar_apis_backup attempts an HTTP
request while walking a list of slots: every slot except unset urls, in
configured order. -/
def invokedIdx : Nat → List BackupSlot → List Nat
  | _, [] => []
  | i, BackupSlot.unset :: rest => invokedIdx (i + 1) rest
  | i, BackupSlot.exc :: rest => i :: invokedIdx (i + 1) rest
  | i, BackupSlot.response _ _ :: rest => i :: invokedIdx (i + 1) rest

/-- Every value held by a cache tier is a Record: no entry carries an
erro field. -/
def recordsOnly (m : CacheL) : Prop :=
  ∀ p ∈ m, (Prod.snd p).erro = none

theorem isUpperAlnum_cases (c : Char) (h : isUpperAlnum c = true) :
    ('A' ≤ c ∧ c ≤ 'Z') ∨ ('0' ≤ c ∧ c ≤ '9') := by
  simpa [isUpperAlnum, isUpperLetter, isDigitChar, Bool.or_eq_true,
    Bool.and_eq_true, decide_eq_true_eq] using h

theorem pyToUpper_eq_self (c : Char) (h : isUpperAlnum c = true) :
    pyToUpper c = c := by
  have h1 : ¬ ('a' ≤ c) := by
    rcases isUpperAlnum_cases c h with ⟨_, h2⟩ | ⟨_, h2⟩
    · exact fun ha => absurd (le_trans ha h2) (by decide)
    · exact fun ha => absurd (le_trans ha h2) (by decide)
  simp [pyToUpper, h1]

theorem alnum_ge_zero (c : Char) (h : isUpperAlnum c = true) : '0' ≤ c := by
  rcases isUpperAlnum_cases c h with ⟨h1, _⟩ | ⟨h1, _⟩
  · exact le_trans (by decide) h1
  · exact h1

theorem isPySpace_false_of_alnum (c : Char) (h : isUpperAlnum c = true) :
    isPySpace c = false := by
  have h0 : '0' ≤ c := alnum_ge_zero c h
  have hne : ∀ w : Char, w < '0' → ¬ (c = w) := by
    intro w hw hc
    rw [hc] at h0
    exact absurd h0 (not_le.mpr hw)
  simp [isPySpace, decide_eq_false (hne ' ' (by decide)),
    decide_eq_false (hne '\t' (by decide)),
    decide_eq_false (hne '\n' (by decide)),
    decide_eq_false (hne '\r' (by decide)),
    decide_eq_false (hne '\x0b' (by decide)),
    decide_eq_false (hne '\x0c' (by decide))]

theorem dropWhile_eq_self_of_false {p : Char → Bool} :
    ∀ l : List Char, (∀ c ∈ l, p c = false) → l.dropWhile p = l
  | [], _ => rfl
  | a :: l, h => by
      simp [List.dropWhile_cons, h a (List.mem_cons_self a l)]

theorem stripChars_eq_self (l : List Char)
    (h : ∀ c ∈ l, isUpperAlnum c = true) : stripChars l = l := by
  have h1 : l.dropWhile isPySpace = l :=
    dropWhile_eq_self_of_false l (fun c hc => isPySpace_false_of_alnum c (h c hc))
  have h2 : l.reverse.dropWhile isPySpace = l.reverse :=
    dropWhile_eq_self_of_false l.reverse
      (fun c hc => isPySpace_false_of_alnum c (h c (List.mem_reverse.mp hc)))
  unfold stripChars
  rw [h1, h2, List.reverse_reverse]

theorem map_pyToUpper_eq_self :
    ∀ l : List Char, (∀ c ∈ l, isUpperAlnum c = true) → l.map pyToUpper = l
  | [], _ => rfl
  | a :: l, h => by
      simp only [List.map_cons, pyToUpper_eq_self a (h a (List.mem_cons_self a l)),
        map_pyToUpper_eq_self l (fun c hc => h c (List.mem_cons_of_mem a hc))]

theorem validate_plate_on_alnum (s : String)
    (h : ∀ c ∈ s.data, isUpperAlnum c = true) :
    validate_plate s =
      (if matchesMercosul s.data then (true, "mercosul")
       else if matchesAntiga s.data then (true, "antiga")
       else if matchesMotoMercosul s.data then (true, "moto_mercosul")
       else (false, "invalid")) := by
  unfold validate_plate
  rw [map_pyToUpper_eq_self s.data h, stripChars_eq_self s.data h]

theorem letter_not_digit (c : Char) (h : isUpperLetter c = true) :
    isDigitChar c = false := by
  obtain ⟨h1, _⟩ : 'A' ≤ c ∧ c ≤ 'Z' := by
    simpa [isUpperLetter, Bool.and_eq_true, decide_eq_true_eq] using h
  have h2 : ¬ (c ≤ '9') := fun hc => absurd (le_trans h1 hc) (by decide)
  simp [isDigitChar, h2]

theorem exists_seven_chars :
    ∀ l : List Char, l.length = 7 → ∃ a b c d e f g, l = [a, b, c, d, e, f, g] := by
  intro l h
  match l, h with
  | [a, b, c, d, e, f, g], _ => exact ⟨a, b, c, d, e, f, g, rfl⟩

theorem antiga_mercosul_exclusive (a b c d e f g : Char)
    (ha : matchesAntiga [a, b, c, d, e, f, g] = true)
    (hm : matchesMercosul [a, b, c, d, e, f, g] = true) : False := by
  simp only [matchesAntiga, Bool.and_eq_true] at ha
  simp only [matchesMercosul, Bool.and_eq_true] at hm
  have h1 : isDigitChar e = true := ha.1.1.2
  rw [letter_not_digit e hm.1.1.2] at h1
  exact Bool.false_ne_true h1

theorem antiga_moto_exclusive (a b c d e f g : Char)
    (ha : matchesAntiga [a, b, c, d, e, f, g] = true)
    (ht : matchesMotoMercosul [a, b, c, d, e, f, g] = true) : False := by
  simp only [matchesAntiga, Bool.and_eq_true] at ha
  simp only [matchesMotoMercosul, Bool.and_eq_true] at ht
  have h1 : isDigitChar f = true := ha.1.2
  rw [letter_not_digit f ht.1.2] at h1
  exact Bool.false_ne_true h1

theorem mercosul_moto_exclusive (a b c d e f g : Char)
    (hm : matchesMercosul [a, b, c, d, e, f, g] = true)
    (ht : matchesMotoMercosul [a, b, c, d, e, f, g] = true) : False := by
  simp only [matchesMercosul, Bool.and_eq_true] at hm
  simp only [matchesMotoMercosul, Bool.and_eq_true] at ht
  have h1 : isDigitChar f = true := hm.1.2
  rw [letter_not_digit f ht.1.2] at h1
  exact Bool.false_ne_true h1

/-- Claim C5: for every 7-character uppercase-alphanumeric string,
validate_plate returns (true, antiga) exactly when the string is 3
letters followed by 4 digits, (true, mercosul) exactly when it is 3
letters, 1 digit, 1 letter, 2 digits, and (true, moto_mercosul) exactly
when it is 3 letters, 2 digits, 1 letter, 1 digit; for every other
7-character alphanumeric string it returns (false, invalid); and the
three patterns are mutually exclusive, so the match order does not
affect the result. In the vocabulary of the spec, antiga is the legacy
variant, mercosul the current variant and moto_mercosul the
two-wheeler-current variant. -/
theorem plate_classification (s : String) (h7 : s.data.length = 7)
    (halnum : ∀ c ∈ s.data, isUpperAlnum c = true) :
    (validate_plate s = (true, "antiga") ↔ matchesAntiga s.data = true) ∧
    (validate_plate s = (true, "mercosul") ↔ matchesMercosul s.data = true) ∧
    (validate_plate s = (true, "moto_mercosul") ↔ matchesMotoMercosul s.data = true) ∧
    (matchesAntiga s.data = false → matchesMercosul s.data = false →
      matchesMotoMercosul s.data = false → validate_plate s = (false, "invalid")) ∧
    (¬ (matchesAntiga s.data = true ∧ matchesMercosul s.data = true)) ∧
    (¬ (matchesAntiga s.data = true ∧ matchesMotoMercosul s.data = true)) ∧
    (¬ (matchesMercosul s.data = true ∧ matchesMotoMercosul s.data = true)) := by
  have hv := validate_plate_on_alnum s halnum
  obtain ⟨a, b, c, d, e, f, g, hl⟩ := exists_seven_chars s.data h7
  rw [hl] at hv
  rw [hl]
  cases hM : matchesMercosul [a, b, c, d, e, f, g] with
  | true =>
      cases hA : matchesAntiga [a, b, c, d, e, f, g] with
      | true => exact (antiga_mercosul_exclusive a b c d e f g hA hM).elim
      | false =>
          cases hT : matchesMotoMercosul [a, b, c, d, e, f, g] with
          | true => exact (mercosul_moto_exclusive a b c d e f g hM hT).elim
          | false =>
              simp only [hM, hA, hT, if_true, if_false, reduceIte] at hv
              rw [hv]
              simp [hM, hA, hT]
  | false =>
      cases hA : matchesAntiga [a, b, c, d, e, f, g] with
      | true =>
          cases hT : matchesMotoMercosul [a, b, c, d, e, f, g] with
          | true => exact (antiga_moto_exclusive a b c d e f g hA hT).elim
          | false =>
              simp only [hM, hA, hT, if_true, if_false, reduceIte] at hv
              rw [hv]
              simp [hM, hA, hT]
      | false =>
          cases hT : matchesMotoMercosul [a, b, c, d, e, f, g] with
          | true =>
              simp only [hM, hA, hT, if_true, if_false, reduceIte] at hv
              rw [hv]
              simp [hM, hA, hT]
          | false =>
              simp only [hM, hA, hT, if_true, if_false, reduceIte] at hv
              rw [hv]
              simp [hM, hA, hT]

/-- Witness for plate_classification at the concrete legacy plate
ABC1234. -/
theorem plate_classification_witness :
    validate_plate "ABC1234" = (true, "antiga") := by
  have h := plate_classification "ABC1234" (by decide) (by decide)
  exact h.1.mpr (by decide)

/-- Claim C6 counterexample: the raw input AB#1D23 has pre-normalization
length 7, inside the accepted range 7..8, so the length gate of
handle_message does not reject it; the claim that the length gate
rejects this input before Classify is consulted is therefore false. -/
theorem msg_hash_input_passes_gate :
    handle_message_decision "AB#1D23" ≠ MsgDecision.lengthReject ∧
    (pyStrip "AB#1D23").length = 7 := by
  decide

/-- Claim C6 amended: the raw input AB#1D23 passes the length gate of
handle_message (its raw stripped length 7 lies in 7..8); it normalizes
to the 6-character string AB1D23, which validate_plate (Classify) then
rejects, so the entry point answers invalid format before any cache or
adapter access, but through Classify rather than the length gate. -/
theorem msg_hash_input_format_reject :
    handle_message_decision "AB#1D23" = MsgDecision.formatReject ∧
    normalize_plate "AB#1D23" = "AB1D23" ∧
    (normalize_plate "AB#1D23").length = 6 := by
  decide

/-- Claim C9: the two entry points apply different length pre-checks:
handle_message rejects exactly when the raw stripped input length is
outside 7..8, while handle_inline_query rejects (on a nonempty query)
exactly when the normalized identifier length differs from 7; the input
ABC-1D-23 (raw length 9, normalized length 7) is accepted and
classified as mercosul by the inline path but rejected by the
direct-message length gate without classification. -/
theorem entry_point_gate_divergence :
    (∀ s : String, handle_message_decision s = MsgDecision.lengthReject ↔
      ¬ (7 ≤ (pyStrip s).length ∧ (pyStrip s).length ≤ 8)) ∧
    (∀ s : String, handle_inline_decision s = InlineDecision.lengthReject ↔
      (pyStrip s ≠ "" ∧ (normalize_plate (pyStrip s)).length ≠ 7)) ∧
    handle_message_decision "ABC-1D-23" = MsgDecision.lengthReject ∧
    handle_inline_decision "ABC-1D-23" = InlineDecision.lookup "ABC1D23" "mercosul" := by
  refine ⟨?_, ?_, by decide, by decide⟩
  · intro s
    constructor
    · intro hd hcon
      simp only [handle_message_decision] at hd
      rw [if_neg (not_not_intro hcon)] at hd
      split at hd <;> exact absurd hd (by simp)
    · intro hn
      simp only [handle_message_decision]
      rw [if_pos hn]
  · intro s
    constructor
    · intro hd
      simp only [handle_inline_decision] at hd
      by_cases h0 : pyStrip s = ""
      · rw [if_pos h0] at hd
        exact absurd hd (by simp)
      · rw [if_neg h0] at hd
        refine ⟨h0, ?_⟩
        by_cases h7 : (normalize_plate (pyStrip s)).length ≠ 7
        · exact h7
        · rw [if_neg h7] at hd
          split at hd <;> exact absurd hd (by simp)
    · rintro ⟨h0, h7⟩
      simp only [handle_inline_decision]
      rw [if_neg h0, if_pos h7]

theorem cGet_cPut_same (m : CacheL) (k : String) (v : Dict) :
    cGet (cPut m k v) k = some v := by
  simp [cPut, cGet]

theorem cGet_mem (m : CacheL) (k : String) (v : Dict) :
    cGet m k = some v → (k, v) ∈ m := by
  induction m with
  | nil => intro h; simp [cGet] at h
  | cons p rest ih =>
      intro h
      obtain ⟨k1, v1⟩ := p
      by_cases hk : k1 = k
      · subst hk
        simp [cGet] at h
        subst h
        exact List.mem_cons_self _ _
      · rw [cGet, if_neg hk] at h
        exact List.mem_cons_of_mem _ (ih h)

theorem wantsFallback_iff (d : Dict) :
    wantsFallback d = true ↔
      (d.erro = some "payment_required" ∨ d.erro = some "api_error" ∨
       d.erro = some "timeout" ∨ d.erro = some "http_error") := by
  unfold wantsFallback
  cases h : d.erro with
  | none => simp
  | some k => simp [Bool.or_eq_true, beq_iff_eq, or_assoc]

theorem consultar_placa_fallback_ok (placa : String) (primary : TransportOutcome)
    (slots : List BackupSlot) (cp ce : CacheL)
    (hcp : cGet cp ("placa_" ++ placa) = none)
    (hce : cGet ce ("error_" ++ placa) = none)
    (hf : wantsFallback (consultar_api_principal primary) = true)
    (hb : (consultar_apis_backup slots).1.erro = none) :
    consultar_placa placa primary slots cp ce =
      ⟨(consultar_apis_backup slots).1,
       cPut cp ("placa_" ++ placa) (consultar_apis_backup slots).1, ce, true, true,
       (consultar_apis_backup slots).2⟩ := by
  simp [consultar_placa, hcp, hce, hf, hb]

theorem consultar_placa_fallback_fail (placa : String) (primary : TransportOutcome)
    (slots : List BackupSlot) (cp ce : CacheL)
    (hcp : cGet cp ("placa_" ++ placa) = none)
    (hce : cGet ce ("error_" ++ placa) = none)
    (hf : wantsFallback (consultar_api_principal primary) = true)
    (hb : (consultar_apis_backup slots).1.erro ≠ none) :
    consultar_placa placa primary slots cp ce =
      ⟨consultar_api_principal primary, cp,
       cPut ce ("error_" ++ placa) (consultar_api_principal primary), true, true,
       (consultar_apis_backup slots).2⟩ := by
  simp [consultar_placa, hcp, hce, hf, hb]

theorem consultar_placa_plain_err (placa : String) (primary : TransportOutcome)
    (slots : List BackupSlot) (cp ce : CacheL)
    (hcp : cGet cp ("placa_" ++ placa) = none)
    (hce : cGet ce ("error_" ++ placa) = none)
    (hf : wantsFallback (consultar_api_principal primary) = false)
    (he : (consultar_api_principal primary).erro.isSome = true) :
    consultar_placa placa primary slots cp ce =
      ⟨consultar_api_principal primary, cp,
       cPut ce ("error_" ++ placa) (consultar_api_principal primary), true, false, []⟩ := by
  simp [consultar_placa, hcp, hce, hf, he]

theorem consultar_placa_plain_ok (placa : String) (primary : TransportOutcome)
    (slots : List BackupSlot) (cp ce : CacheL)
    (hcp : cGet cp ("placa_" ++ placa) = none)
    (hce : cGet ce ("error_" ++ placa) = none)
    (hf : wantsFallback (consultar_api_principal primary) = false)
    (he : (consultar_api_principal primary).erro.isSome = false) :
    consultar_placa placa primary slots cp ce =
      ⟨consultar_api_principal primary,
       cPut cp ("placa_" ++ placa) (consultar_api_principal primary), ce, true, false, []⟩ := by
  simp [consultar_placa, hcp, hce, hf, he]

theorem backupScan_skip :
    ∀ (pre : List BackupSlot) (n : Nat) (rest : List BackupSlot),
      (∀ s ∈ pre, slotSkips s = true) →
      backupScan n (pre ++ rest) =
        ((backupScan (n + pre.length) rest).1,
         invokedIdx n pre ++ (backupScan (n + pre.length) rest).2) := by
  intro pre
  induction pre with
  | nil => intro n rest _; simp [invokedIdx]
  | cons s pre ih =>
      intro n rest h
      have hs : slotSkips s = true := h s (List.mem_cons_self s pre)
      have hpre : ∀ t ∈ pre, slotSkips t = true :=
        fun t ht => h t (List.mem_cons_of_mem s ht)
      have harith : n + 1 + pre.length = n + (s :: pre).length := by
        simp [List.length_cons]
        omega
      cases s with
      | unset =>
          rw [List.cons_append, show backupScan n (BackupSlot.unset :: (pre ++ rest)) =
            backupScan (n + 1) (pre ++ rest) from rfl]
          rw [ih (n + 1) rest hpre, harith]
          rfl
      | exc =>
          rw [List.cons_append, show backupScan n (BackupSlot.exc :: (pre ++ rest)) =
            ((backupScan (n + 1) (pre ++ rest)).1,
             n :: (backupScan (n + 1) (pre ++ rest)).2) from rfl]
          rw [ih (n + 1) rest hpre, harith]
          rfl
      | response status body =>
          by_cases h200 : status = 200
          · subst h200
            have hb : body = none := by
              cases body with
              | none => rfl
              | some d => simp [slotSkips] at hs
            subst hb
            rw [List.cons_append, show backupScan n
                (BackupSlot.response 200 none :: (pre ++ rest)) =
              ((backupScan (n + 1) (pre ++ rest)).1,
               n :: (backupScan (n + 1) (pre ++ rest)).2) from by simp [backupScan]]
            rw [ih (n + 1) rest hpre, harith]
            rfl
          · rw [List.cons_append, show backupScan n
                (BackupSlot.response status body :: (pre ++ rest)) =
              ((backupScan (n + 1) (pre ++ rest)).1,
               n :: (backupScan (n + 1) (pre ++ rest)).2) from by simp [backupScan, h200]]
            rw [ih (n + 1) rest hpre, harith]
            rfl

/-- The scan of consultar_apis_backup stops at the first slot answering
HTTP 200 with a parseable body and returns that body unconditionally,
having attempted exactly the non-unset slots before it plus that slot
itself. -/
theorem consultar_apis_backup_first200 (pre post : List BackupSlot) (d : Dict)
    (hpre : ∀ s ∈ pre, slotSkips s = true) :
    consultar_apis_backup (pre ++ BackupSlot.response 200 (some d) :: post) =
      (d, invokedIdx 0 pre ++ [pre.length]) := by
  unfold consultar_apis_backup
  rw [backupScan_skip pre 0 (BackupSlot.response 200 (some d) :: post) hpre]
  simp [backupScan]

theorem backup_calls_ne_nil :
    ∀ (slots : List BackupSlot), (∃ s ∈ slots, s ≠ BackupSlot.unset) →
      ∀ n, (backupScan n slots).2 ≠ [] := by
  intro slots
  induction slots with
  | nil => intro h; simp at h
  | cons s rest ih =>
      intro h n
      cases s with
      | unset =>
          have h2 : ∃ t ∈ rest, t ≠ BackupSlot.unset := by
            rcases h with ⟨t, ht, hne⟩
            rcases List.mem_cons.mp ht with h1 | h1
            · exact absurd h1 hne
            · exact ⟨t, h1, hne⟩
          simpa [backupScan] using ih h2 (n + 1)
      | exc => simp [backupScan]
      | response status body =>
          by_cases h200 : status = 200
          · subst h200
            cases body with
            | none => simp [backupScan]
            | some d => simp [backupScan]
          · simp [backupScan, h200]

/-- Claim C1: for an identifier absent from both caches,
consultar_placa enters the backup fallback exactly when the primary
outcome carries an erro field equal to payment_required, api_error
(upstream_error in the vocabulary of the spec), timeout or http_error;
when the primary yields not_found or rate_limit (rate_limited in the
spec), no backup request is made; conversely, outside the fallback no
backup request is ever made, and inside the fallback the first
configured (non-unset) backup really is queried. -/
theorem fallback_gating (placa : String) (primary : TransportOutcome)
    (slots : List BackupSlot) (cp ce : CacheL)
    (hcp : cGet cp ("placa_" ++ placa) = none)
    (hce : cGet ce ("error_" ++ placa) = none) :
    ((consultar_placa placa primary slots cp ce).fallbackEntered = true ↔
      ((consultar_api_principal primary).erro = some "payment_required" ∨
       (consultar_api_principal primary).erro = some "api_error" ∨
       (consultar_api_principal primary).erro = some "timeout" ∨
       (consultar_api_principal primary).erro = some "http_error")) ∧
    ((consultar_api_principal primary).erro = some "not_found" ∨
        (consultar_api_principal primary).erro = some "rate_limit" →
      (consultar_placa placa primary slots cp ce).backupsCalled = []) ∧
    ((consultar_placa placa primary slots cp ce).fallbackEntered = false →
      (consultar_placa placa primary slots cp ce).backupsCalled = []) ∧
    ((consultar_placa placa primary slots cp ce).fallbackEntered = true →
      (∃ s ∈ slots, s ≠ BackupSlot.unset) →
      (consultar_placa placa primary slots cp ce).backupsCalled ≠ []) := by
  refine ⟨?_, ?_, ?_, ?_⟩
  · cases hf : wantsFallback (consultar_api_principal primary) with
    | true =>
        have hkinds := (wantsFallback_iff _).mp hf
        by_cases hb : (consultar_apis_backup slots).1.erro = none
        · rw [consultar_placa_fallback_ok placa primary slots cp ce hcp hce hf hb]
          exact iff_of_true rfl hkinds
        · rw [consultar_placa_fallback_fail placa primary slots cp ce hcp hce hf hb]
          exact iff_of_true rfl hkinds
    | false =>
        have hnk : ¬ ((consultar_api_principal primary).erro = some "payment_required" ∨
            (consultar_api_principal primary).erro = some "api_error" ∨
            (consultar_api_principal primary).erro = some "timeout" ∨
            (consultar_api_principal primary).erro = some "http_error") :=
          fun hk => absurd ((wantsFallback_iff _).mpr hk) (by simp [hf])
        cases he : (consultar_api_principal primary).erro.isSome with
        | true =>
            rw [consultar_placa_plain_err placa primary slots cp ce hcp hce hf he]
            exact iff_of_false (by simp) hnk
        | false =>
            rw [consultar_placa_plain_ok placa primary slots cp ce hcp hce hf he]
            exact iff_of_false (by simp) hnk
  · intro hnr
    have hf : wantsFallback (consultar_api_principal primary) = false := by
      rcases hnr with h | h <;> simp [wantsFallback, h]
    cases he : (consultar_api_principal primary).erro.isSome with
    | true => rw [consultar_placa_plain_err placa primary slots cp ce hcp hce hf he]
    | false => rw [consultar_placa_plain_ok placa primary slots cp ce hcp hce hf he]
  · intro h3
    cases hf : wantsFallback (consultar_api_principal primary) with
    | true =>
        by_cases hb : (consultar_apis_backup slots).1.erro = none
        · rw [consultar_placa_fallback_ok placa primary slots cp ce hcp hce hf hb] at h3
          exact absurd h3 (by simp)
        · rw [consultar_placa_fallback_fail placa primary slots cp ce hcp hce hf hb] at h3
          exact absurd h3 (by simp)
    | false =>
        cases he : (consultar_api_principal primary).erro.isSome with
        | true => rw [consultar_placa_plain_err placa primary slots cp ce hcp hce hf he]
        | false => rw [consultar_placa_plain_ok placa primary slots cp ce hcp hce hf he]
  · intro h4 hex
    have hne : (consultar_apis_backup slots).2 ≠ [] := backup_calls_ne_nil slots hex 0
    cases hf : wantsFallback (consultar_api_principal primary) with
    | false =>
        cases he : (consultar_api_principal primary).erro.isSome with
        | true =>
            rw [consultar_placa_plain_err placa primary slots cp ce hcp hce hf he] at h4
            exact absurd h4 (by simp)
        | false =>
            rw [consultar_placa_plain_ok placa primary slots cp ce hcp hce hf he] at h4
            exact absurd h4 (by simp)
    | true =>
        by_cases hb : (consultar_apis_backup slots).1.erro = none
        · rw [consultar_placa_fallback_ok placa primary slots cp ce hcp hce hf hb]
          exact hne
        · rw [consultar_placa_fallback_fail placa primary slots cp ce hcp hce hf hb]
          exact hne

/-- Witness for fallback_gating: a double cache miss with a timed-out
primary and one configured backup that fails; the fallback is entered
and the backup is queried. -/
theorem fallback_gating_witness :
    (consultar_placa "ABC1234" TransportOutcome.timeoutExc [BackupSlot.exc]
        [] []).fallbackEntered = true := by
  have h := fallback_gating "ABC1234" TransportOutcome.timeoutExc [BackupSlot.exc]
    [] [] rfl rfl
  exact h.1.mpr (by decide)

/-- Claim C2: on a double cache miss, when the primary outcome carries a
fallback-triggering kind and the backup scan result itself carries an
erro field (every configured backup failed or answered an error body,
or no backups are configured), consultar_placa stores the original
primary failure in cache_erros and returns it; the returned and cached
dict is the primary one with its original kind, not the backup result
and not the all_apis_failed aggregate. -/
theorem fallback_failure_caches_primary (placa : String)
    (primary : TransportOutcome) (slots : List BackupSlot) (cp ce : CacheL)
    (k : String)
    (hcp : cGet cp ("placa_" ++ placa) = none)
    (hce : cGet ce ("error_" ++ placa) = none)
    (hk : (consultar_api_principal primary).erro = some k)
    (hkind : k = "payment_required" ∨ k = "api_error" ∨ k = "timeout" ∨
      k = "http_error")
    (hb : (consultar_apis_backup slots).1.erro ≠ none) :
    (consultar_placa placa primary slots cp ce).result =
      consultar_api_principal primary ∧
    cGet (consultar_placa placa primary slots cp ce).ce ("error_" ++ placa) =
      some (consultar_api_principal primary) ∧
    (consultar_placa placa primary slots cp ce).cp = cp ∧
    (consultar_placa placa primary slots cp ce).result.erro = some k ∧
    k ≠ "all_apis_failed" := by
  have hf : wantsFallback (consultar_api_principal primary) = true := by
    rw [wantsFallback_iff]
    rcases hkind with h | h | h | h <;> rw [h] at hk <;> simp [hk]
  rw [consultar_placa_fallback_fail placa primary slots cp ce hcp hce hf hb]
  refine ⟨rfl, cGet_cPut_same ce ("error_" ++ placa) _, rfl, hk, ?_⟩
  rcases hkind with h | h | h | h <;> rw [h] <;> decide

/-- Witness for fallback_failure_caches_primary: a 402 primary outcome
with one configured backup that raises; the payment_required failure is
cached and returned. -/
theorem fallback_failure_caches_primary_witness :
    (consultar_placa "ABC1234" (TransportOutcome.response 402 none)
        [BackupSlot.exc] [] []).result =
      consultar_api_principal (TransportOutcome.response 402 none) := by
  have h := fallback_failure_caches_primary "ABC1234"
    (TransportOutcome.response 402 none) [BackupSlot.exc] [] []
    "payment_required" rfl rfl (by decide) (Or.inl rfl) (by decide)
  exact h.1

/-- Claim C3 counterexample: with a double cache miss, an http_error
primary and two configured backups, where backup 0 answers HTTP 200
with a body carrying an erro field and backup 1 would answer HTTP 200
with a Record, the scan stops at backup 0: only slot 0 is queried, the
Record of backup 1 is neither returned nor cached, and the caller gets
the primary failure; so it is not the case that the first backup that
returns a Record stops the scan and has its Record cached and
returned. -/
theorem backup_scan_stops_at_error_body :
    (consultar_placa "ABC1234" (TransportOutcome.response 500 none)
        [BackupSlot.response 200 (some ⟨some "not_found", some "x", ""⟩),
         BackupSlot.response 200 (some ⟨none, none, "record"⟩)] [] []).result =
      consultar_api_principal (TransportOutcome.response 500 none) ∧
    (consultar_placa "ABC1234" (TransportOutcome.response 500 none)
        [BackupSlot.response 200 (some ⟨some "not_found", some "x", ""⟩),
         BackupSlot.response 200 (some ⟨none, none, "record"⟩)] [] []).backupsCalled =
      [0] ∧
    cGet (consultar_placa "ABC1234" (TransportOutcome.response 500 none)
        [BackupSlot.response 200 (some ⟨some "not_found", some "x", ""⟩),
         BackupSlot.response 200 (some ⟨none, none, "record"⟩)] [] []).cp
      "placa_ABC1234" = none := by
  decide

/-- Claim C3 amended: during fallback, consultar_placa queries the
configured backups sequentially in configured order; provided every
backup before the first Record-returning one fails at transport level
(unset url, raised request, non-200 status, or unparseable 200 body)
rather than answering a 200 body that itself carries an erro field, the
first backup whose 200 body is a Record stops the scan, that Record is
stored in cache_principal and returned to the caller, and the primary
failure as well as all earlier backup failures are discarded. -/
theorem backup_first_record_wins (placa : String) (primary : TransportOutcome)
    (pre post : List BackupSlot) (d : Dict) (cp ce : CacheL)
    (hcp : cGet cp ("placa_" ++ placa) = none)
    (hce : cGet ce ("error_" ++ placa) = none)
    (hf : wantsFallback (consultar_api_principal primary) = true)
    (hpre : ∀ s ∈ pre, slotSkips s = true)
    (hd : d.erro = none) :
    consultar_placa placa primary (pre ++ BackupSlot.response 200 (some d) :: post)
        cp ce =
      ⟨d, cPut cp ("placa_" ++ placa) d, ce, true, true,
       invokedIdx 0 pre ++ [pre.length]⟩ := by
  have hscan := consultar_apis_backup_first200 pre post d hpre
  have hb : (consultar_apis_backup
      (pre ++ BackupSlot.response 200 (some d) :: post)).1.erro = none := by
    rw [hscan]
    exact hd
  rw [consultar_placa_fallback_ok placa primary _ cp ce hcp hce hf hb, hscan]

/-- Witness for backup_first_record_wins: primary times out, backup 0
raises, backup 1 answers a Record; the Record is returned and backups 0
and 1 are queried in order. -/
theorem backup_first_record_wins_witness :
    consultar_placa "ABC1234" TransportOutcome.timeoutExc
        [BackupSlot.exc, BackupSlot.response 200 (some ⟨none, none, "record"⟩)]
        [] [] =
      ⟨⟨none, none, "record"⟩, cPut [] "placa_ABC1234" ⟨none, none, "record"⟩,
       [], true, true, [0, 1]⟩ := by
  have h := backup_first_record_wins "ABC1234" TransportOutcome.timeoutExc
    [BackupSlot.exc] [] ⟨none, none, "record"⟩ [] [] rfl rfl (by decide)
    (by decide) rfl
  simpa [invokedIdx] using h

/-- Claim C10: the backup scan returns the JSON body of the first
backup answering HTTP 200 unconditionally; when that body itself
carries an erro field, the remaining configured backups are not tried
(the queried indices stop at that slot), the orchestrator treats the
whole fallback as failed, and it caches and returns the original
primary failure, whatever the later slots would have answered. -/
theorem backup_error_body_aborts (placa : String) (primary : TransportOutcome)
    (pre post : List BackupSlot) (d : Dict) (k : String) (cp ce : CacheL)
    (hcp : cGet cp ("placa_" ++ placa) = none)
    (hce : cGet ce ("error_" ++ placa) = none)
    (hf : wantsFallback (consultar_api_principal primary) = true)
    (hpre : ∀ s ∈ pre, slotSkips s = true)
    (hd : d.erro = some k) :
    (consultar_apis_backup
        (pre ++ BackupSlot.response 200 (some d) :: post)).1 = d ∧
    consultar_placa placa primary (pre ++ BackupSlot.response 200 (some d) :: post)
        cp ce =
      ⟨consultar_api_principal primary, cp,
       cPut ce ("error_" ++ placa) (consultar_api_principal primary), true, true,
       invokedIdx 0 pre ++ [pre.length]⟩ := by
  have hscan := consultar_apis_backup_first200 pre post d hpre
  have hb : (consultar_apis_backup
      (pre ++ BackupSlot.response 200 (some d) :: post)).1.erro ≠ none := by
    rw [hscan]
    simp [hd]
  refine ⟨by rw [hscan], ?_⟩
  rw [consultar_placa_fallback_fail placa primary _ cp ce hcp hce hf hb, hscan]

/-- Witness for backup_error_body_aborts: primary times out, backup 0
answers 200 with an erro body, backup 1 would answer a Record but is
never queried; the timeout failure is returned. -/
theorem backup_error_body_aborts_witness :
    consultar_placa "ABC1234" TransportOutcome.timeoutExc
        [BackupSlot.response 200 (some ⟨some "not_found", none, ""⟩),
         BackupSlot.response 200 (some ⟨none, none, "record"⟩)] [] [] =
      ⟨consultar_api_principal TransportOutcome.timeoutExc, [],
       cPut [] "error_ABC1234" (consultar_api_principal TransportOutcome.timeoutExc),
       true, true, [0]⟩ := by
  have h := backup_error_body_aborts "ABC1234" TransportOutcome.timeoutExc
    [] [BackupSlot.response 200 (some ⟨none, none, "record"⟩)]
    ⟨some "not_found", none, ""⟩ "not_found" [] [] rfl rfl (by decide)
    (by simp) rfl
  simpa [invokedIdx] using h.2

/-- Claim C4: a live entry in cache_principal is returned immediately
with no adapter activity and unchanged caches; failing that, a live
entry in cache_erros is returned the same way; and after a lookup that
missed both tiers, a second lookup for the same identifier, whatever
its adapters would answer, is a pure cache hit: it returns the first
outcome, changes nothing, and performs no primary or backup call,
whichever tier received the first outcome. -/
theorem cache_precedence (placa : String) (primary : TransportOutcome)
    (slots : List BackupSlot) (cp ce : CacheL) :
    (∀ v, cGet cp ("placa_" ++ placa) = some v →
      consultar_placa placa primary slots cp ce = ⟨v, cp, ce, false, false, []⟩) ∧
    (∀ v, cGet cp ("placa_" ++ placa) = none →
      cGet ce ("error_" ++ placa) = some v →
      consultar_placa placa primary slots cp ce = ⟨v, cp, ce, false, false, []⟩) ∧
    (cGet cp ("placa_" ++ placa) = none → cGet ce ("error_" ++ placa) = none →
      ∀ (primary2 : TransportOutcome) (slots2 : List BackupSlot),
      consultar_placa placa primary2 slots2
          (consultar_placa placa primary slots cp ce).cp
          (consultar_placa placa primary slots cp ce).ce =
        ⟨(consultar_placa placa primary slots cp ce).result,
         (consultar_placa placa primary slots cp ce).cp,
         (consultar_placa placa primary slots cp ce).ce, false, false, []⟩) := by
  refine ⟨?_, ?_, ?_⟩
  · intro v hv
    simp [consultar_placa, hv]
  · intro v hcp hce
    simp [consultar_placa, hcp, hce]
  · intro hcp hce primary2 slots2
    cases hf : wantsFallback (consultar_api_principal primary) with
    | true =>
        by_cases hb : (consultar_apis_backup slots).1.erro = none
        · rw [consultar_placa_fallback_ok placa primary slots cp ce hcp hce hf hb]
          simp [consultar_placa, cGet_cPut_same]
        · rw [consultar_placa_fallback_fail placa primary slots cp ce hcp hce hf hb]
          simp [consultar_placa, hcp, cGet_cPut_same]
    | false =>
        cases he : (consultar_api_principal primary).erro.isSome with
        | true =>
            rw [consultar_placa_plain_err placa primary slots cp ce hcp hce hf he]
            simp [consultar_placa, hcp, cGet_cPut_same]
        | false =>
            rw [consultar_placa_plain_ok placa primary slots cp ce hcp hce hf he]
            simp [consultar_placa, cGet_cPut_same]

/-- Witness for cache_precedence: after a first lookup that misses both
empty caches and receives a Record from the primary, a repeated lookup
with a timing-out primary still answers the cached Record without any
adapter call. -/
theorem cache_precedence_witness :
    consultar_placa "ABC1234" TransportOutcome.timeoutExc []
        (consultar_placa "ABC1234"
          (TransportOutcome.response 200 (some ⟨none, none, "civic"⟩)) [] [] []).cp
        (consultar_placa "ABC1234"
          (TransportOutcome.response 200 (some ⟨none, none, "civic"⟩)) [] [] []).ce =
      ⟨(consultar_placa "ABC1234"
          (TransportOutcome.response 200 (some ⟨none, none, "civic"⟩)) [] [] []).result,
       (consultar_placa "ABC1234"
          (TransportOutcome.response 200 (some ⟨none, none, "civic"⟩)) [] [] []).cp,
       (consultar_placa "ABC1234"
          (TransportOutcome.response 200 (some ⟨none, none, "civic"⟩)) [] [] []).ce,
       false, false, []⟩ :=
  (cache_precedence "ABC1234"
    (TransportOutcome.response 200 (some ⟨none, none, "civic"⟩)) [] [] []).2.2
    rfl rfl TransportOutcome.timeoutExc []

/-- Claim C7: consultar_api_principal is a total function of the
transport outcome: a transport timeout yields kind timeout, HTTP 402
yields payment_required, HTTP 404 yields not_found, HTTP 429 yields
rate_limit (rate_limited in the vocabulary of the spec), any other
non-2xx status yields http_error, and any other transport or parsing
exception, including an unparseable 2xx body, is converted to api_error
(upstream_error in the spec); a parsed 2xx body is returned as is, and
no case escapes the adapter unclassified. -/
theorem primary_adapter_total (status : Nat) (body : Option Dict) (d : Dict) :
    (consultar_api_principal TransportOutcome.timeoutExc).erro = some "timeout" ∧
    (consultar_api_principal TransportOutcome.otherExc).erro = some "api_error" ∧
    (consultar_api_principal (TransportOutcome.response 402 body)).erro =
      some "payment_required" ∧
    (consultar_api_principal (TransportOutcome.response 404 body)).erro =
      some "not_found" ∧
    (consultar_api_principal (TransportOutcome.response 429 body)).erro =
      some "rate_limit" ∧
    (status ≠ 402 → status ≠ 404 → status ≠ 429 → status < 200 ∨ 299 < status →
      (consultar_api_principal (TransportOutcome.response status body)).erro =
        some "http_error") ∧
    (200 ≤ status → status ≤ 299 →
      consultar_api_principal (TransportOutcome.response status none) =
        ⟨some "api_error", some "❌ Erro na consulta", ""⟩) ∧
    (200 ≤ status → status ≤ 299 →
      consultar_api_principal (TransportOutcome.response status (some d)) = d) := by
  refine ⟨rfl, rfl, by simp [consultar_api_principal],
    by simp [consultar_api_principal], by simp [consultar_api_principal],
    ?_, ?_, ?_⟩
  · intro h402 h404 h429 hout
    simp [consultar_api_principal, h402, h404, h429, hout]
  · intro hlo hhi
    have h402 : status ≠ 402 := by omega
    have h404 : status ≠ 404 := by omega
    have h429 : status ≠ 429 := by omega
    have hin : ¬ (status < 200 ∨ 299 < status) := by omega
    simp [consultar_api_principal, h402, h404, h429, hin]
  · intro hlo hhi
    have h402 : status ≠ 402 := by omega
    have h404 : status ≠ 404 := by omega
    have h429 : status ≠ 429 := by omega
    have hin : ¬ (status < 200 ∨ 299 < status) := by omega
    simp [consultar_api_principal, h402, h404, h429, hin]

/-- Witness for primary_adapter_total: HTTP 500 is classified as
http_error. -/
theorem primary_adapter_total_witness :
    (consultar_api_principal (TransportOutcome.response 500 none)).erro =
      some "http_error" :=
  (primary_adapter_total 500 none ⟨none, none, ""⟩).2.2.2.2.2.1
    (by decide) (by decide) (by decide) (by omega)

/-- Claim C8: the lookup-and-cache step of handle_inline_query
preserves the invariant that cache_inline holds only Records (a
ClassifiedFailure outcome is never written to it), and an inline cache
hit therefore never serves a failure to the caller. -/
theorem inline_cache_records_only (placa : String) (primary : TransportOutcome)
    (slots : List BackupSlot) (cp ce ci : CacheL)
    (hci : recordsOnly ci) :
    recordsOnly (inline_cache_step placa primary slots cp ce ci).ci ∧
    ((inline_cache_step placa primary slots cp ce ci).lookupCalled = false →
      (inline_cache_step placa primary slots cp ce ci).result.erro = none) := by
  cases h : cGet ci ("inline_" ++ placa) with
  | some r =>
      have hr : ("inline_" ++ placa, r) ∈ ci := cGet_mem ci _ r h
      simp only [inline_cache_step, h]
      exact ⟨hci, fun _ => hci ("inline_" ++ placa, r) hr⟩
  | none =>
      simp only [inline_cache_step, h]
      by_cases he : (consultar_placa placa primary slots cp ce).result.erro = none
      · simp only [he, if_true, reduceIte]
        refine ⟨?_, fun hfalse => by simp at hfalse⟩
        intro p hp
        rcases List.mem_cons.mp hp with h1 | h1
        · rw [h1]
          exact he
        · exact hci p h1
      · simp only [he, if_false, reduceIte]
        exact ⟨hci, fun hfalse => by simp at hfalse⟩

/-- Witness for inline_cache_records_only: a failing lookup (timeout,
no backups) leaves the empty inline cache empty of failures. -/
theorem inline_cache_records_only_witness :
    recordsOnly (inline_cache_step "ABC1234" TransportOutcome.timeoutExc
      [] [] [] []).ci := by
  have h := inline_cache_records_only "ABC1234" TransportOutcome.timeoutExc
    [] [] [] [] (by intro p hp; simp at hp)
  exact h.1

